import Mathlib

/-!
Verification of the `OpenAIClient` wrapper (`app/completion.py`).

The Python class is embedded shallowly:

* the immutable configuration stored on `self` becomes the structure
  `OpenAIClient`; methods become Lean functions that take the client and
  return their result together with the (unchanged) client, making the
  frame condition of each method explicit;
* the external streaming response is an input: a list of chunk values whose
  shape mirrors the JSON objects the code inspects (`choices`, `delta`,
  `message`, `content`, `text`); an `Option` field value `none` models a
  field that is absent or `None`, so a Python expression that would raise
  on such a field is modelled by an `Option`-valued result where `none`
  models the raised exception;
* the tiktoken `gpt2` encoder is external code, so it is carried as an
  abstract field `encoder : String → List Nat` of the client (the code only
  ever takes the length of an encoding);
* Python `str` becomes `String`, `str.startswith` is embedded at the level
  of code-point lists, and the arithmetic on `max_tokens` is done in `Int`
  exactly as Python's unbounded integers behave;
* the `backoff.on_exception` decorator is third-party library code that is
  not part of the repository, so its driver is modelled from the spec (see
  `retryGo`); the tuple of retried exception classes and the 300 second
  bound come from the decorator application in the source.
-/

/-- Fixed system instruction, copied verbatim from `app/completion.py`. -/
def system_prompt : String := "Please review the code below and identify any syntax or logical errors, suggest ways to refactor and improve code quality, enhance performance, address security\nconcerns, and align with best practices. Provide specific examples for each area and limit your recommendations to three per category.\nUse the following response format, keeping the section headings as-is, and provide your feedback. Use bullet points for each response. The provided examples are for\nillustration purposes only and should not be repeated. please answer in Chinese.\n**Syntax and logical errors (example)**: \n- Incorrect indentation on line 12\n- Missing closing parenthesis on line 23\n**Code refactoring and quality (example)**: \n- Replace multiple if-else statements with a switch case for readability\n- Extract repetitive code into separate functions\n**Performance optimization (example)**: \n- Use a more efficient sorting algorithm to reduce time complexity\n- Cache results of expensive operations for reuse\n**Security vulnerabilities (example)**: \n- Sanitize user input to prevent SQL injection attacks\n- Use prepared statements for database queries\n**Best practices (example)**: \n- Add meaningful comments and documentation to explain the code\n- Follow consistent naming conventions for variables and functions\n"

/-- Configuration stored on `self` by `OpenAIClient.__init__`.  The encoder
field holds the external tiktoken `gpt2` encoding function (the code only
uses the length of its output). -/
structure OpenAIClient where
  model : String
  temperature : Float
  frequency_penalty : Float
  presence_penalty : Float
  encoder : String → List Nat
  max_tokens : Int
  min_tokens : Int

/-- Embedding of `OpenAIClient.__init__(model, temperature, frequency_penalty,
presence_penalty, max_tokens, min_tokens)`; `gpt2_encode` stands for the
external `tiktoken.get_encoding("gpt2")` tokenizer assigned to
`self.encoder`. -/
def OpenAIClient.init (gpt2_encode : String → List Nat) (model : String)
    (temperature frequency_penalty presence_penalty : Float)
    (max_tokens min_tokens : Int) : OpenAIClient :=
  { model := model, temperature := temperature,
    frequency_penalty := frequency_penalty,
    presence_penalty := presence_penalty,
    encoder := gpt2_encode, max_tokens := max_tokens,
    min_tokens := min_tokens }

/-- Python `s.startswith(pre)`: the code points of `pre` are an initial
segment of the code points of `s`. -/
def py_startswith (s pre : String) : Bool :=
  pre.data.isPrefixOf s.data

/-- Which of the two completion paths `get_completion` takes. -/
inductive CompletionMode where
  | chat
  | text
deriving DecidableEq

/-- One role-tagged message of the chat request body. -/
structure ChatMessage where
  role : String
  content : String

/-- Keyword arguments of the `openai.ChatCompletion.create` call issued by
`get_completion_chat`. -/
structure ChatRequest where
  model : String
  messages : List ChatMessage
  temperature : Float
  frequency_penalty : Float
  presence_penalty : Float
  request_timeout : Nat
  max_tokens : Int
  stream : Bool

/-- Keyword arguments of the `openai.Completion.create` call issued by
`get_completion_text`. -/
structure TextRequest where
  model : String
  prompt : String
  temperature : Float
  best_of : Nat
  frequency_penalty : Float
  presence_penalty : Float
  request_timeout : Nat
  max_tokens : Int
  stream : Bool

/-- A `delta` or `message` object inside a streamed chat chunk: its
`content` entry, `none` when the entry is absent or `None`. -/
structure ChatContent where
  content : Option String

/-- One element of a chat chunk's `choices` list.  `delta`/`message` are
`none` when the corresponding entry is absent or `None` (the code guards
both with `choice.get(..., None) is not None`). -/
structure ChatChoice where
  delta : Option ChatContent
  message : Option ChatContent

/-- One streamed chunk of a chat response; `choices` is `none` when the
chunk's `choices` entry is `None` (the code guards it with
`event["choices"] is not None`). -/
structure ChatChunk where
  choices : Option (List ChatChoice)

/-- One element of a text chunk's `choices` list.  `text` is `none` when
the choice has no usable `"text"` entry; the code accesses
`event["choices"][0]["text"]` without a guard, so that case raises. -/
structure TextChoice where
  text : Option String

/-- One streamed chunk of a legacy text response. -/
structure TextChunk where
  choices : Option (List TextChoice)

/-- Text contributed by one chat choice: its delta content, if present,
followed by its message content, if present — the two guarded `+=`
statements of the loop body of `get_completion_chat`. -/
def chatChoiceText (choice : ChatChoice) : String :=
  (match choice.delta with
   | some d => match d.content with
     | some c => c
     | none => ""
   | none => "") ++
  (match choice.message with
   | some m => match m.content with
     | some c => c
     | none => ""
   | none => "")

/-- Text contributed by one chat chunk: the loop body of
`get_completion_chat` inspects `event["choices"][0]` only when `choices` is
not `None` and nonempty. -/
def chatEventText (event : ChatChunk) : String :=
  match event.choices with
  | some (choice :: _) => chatChoiceText choice
  | _ => ""

/-- Embedding of `OpenAIClient.get_completion_chat`.  The streamed response
`events` is an input; the result is the request the method sends, the
aggregated completion text, and the client after the call. -/
def get_completion_chat (self : OpenAIClient) (prompt : String)
    (events : List ChatChunk) : (ChatRequest × String) × OpenAIClient :=
  let messages : List ChatMessage :=
    [{ role := "system", content := system_prompt },
     { role := "user", content := prompt }]
  let request : ChatRequest :=
    { model := self.model, messages := messages,
      temperature := self.temperature,
      frequency_penalty := self.frequency_penalty,
      presence_penalty := self.presence_penalty,
      request_timeout := 100,
      max_tokens := self.max_tokens -
        ((self.encoder (system_prompt ++ "\n" ++ prompt)).length : Int),
      stream := true }
  let completion_text : String :=
    events.foldl (fun acc event => acc ++ chatEventText event) ""
  ((request, completion_text), self)

/-- One iteration of the aggregation loop of `get_completion_text`:
`completion_text += event["choices"][0]["text"]` runs only when `choices`
is not `None` and nonempty; a first choice without a usable `"text"` entry
raises, modelled by `none`. -/
def textEventStep (acc : Option String) (event : TextChunk) : Option String :=
  match acc with
  | none => none
  | some s =>
    match event.choices with
    | some (choice :: _) =>
      match choice.text with
      | some t => some (s ++ t)
      | none => none
    | _ => some s

/-- Embedding of `OpenAIClient.get_completion_text`.  The aggregated result
is `Option`-valued: `none` models the `KeyError`/`TypeError` raised when a
chunk's first choice has no usable `"text"` entry. -/
def get_completion_text (self : OpenAIClient) (prompt : String)
    (events : List TextChunk) : (TextRequest × Option String) × OpenAIClient :=
  let prompt_message : String := system_prompt ++ "\n" ++ prompt
  let request : TextRequest :=
    { model := self.model, prompt := prompt_message,
      temperature := self.temperature, best_of := 1,
      frequency_penalty := self.frequency_penalty,
      presence_penalty := self.presence_penalty,
      request_timeout := 100,
      max_tokens := self.max_tokens -
        ((self.encoder prompt_message).length : Int),
      stream := true }
  let completion_text : Option String :=
    events.foldl textEventStep (some "")
  ((request, completion_text), self)

/-- Embedding of the body of `OpenAIClient.get_completion`: the dispatch on
`self.model.startswith("gpt-")` between the chat path and the legacy text
path. -/
def get_completion (self : OpenAIClient) : CompletionMode × OpenAIClient :=
  (if py_startswith self.model "gpt-" then CompletionMode.chat
   else CompletionMode.text, self)

/-- Embedding of `OpenAIClient.get_pr_prompt`: the f-string template
interpolates only `changes`; `title` and `body` are unused. -/
def get_pr_prompt (self : OpenAIClient) (title body changes : String) :
    String × OpenAIClient :=
  let prompt : String :=
    "Here are the changes for this pull request:\nChanges:\n```\n" ++
      changes ++ "\n```\n    "
  (prompt, self)

/-- Embedding of `OpenAIClient.get_file_prompt`: the f-string template
interpolates `filename` and `changes`; `title` and `body` are unused. -/
def get_file_prompt (self : OpenAIClient) (title body filename changes : String) :
    String × OpenAIClient :=
  let prompt : String :=
    "Here are the changes for this pull request:\nAnd bellowing are changes for file " ++
      filename ++ ":\n```\n" ++ changes ++ "\n```\n    "
  (prompt, self)

/-- Exceptions the completion call can surface.  The first three are the
classes listed in the `backoff.on_exception` decorator on
`get_completion`; `other` covers every other exception class. -/
inductive ApiError where
  | rateLimit
  | apiConnection
  | serviceUnavailable
  | other (code : Nat)
deriving DecidableEq

/-- Whether an exception class is in the tuple of retried exceptions of the
`backoff.on_exception` decorator on `get_completion`. -/
def isTransient (e : ApiError) : Bool :=
  match e with
  | ApiError.rateLimit => true
  | ApiError.apiConnection => true
  | ApiError.serviceUnavailable => true
  | ApiError.other _ => false

/-- Modelled from the spec: the driver of the `backoff.on_exception`
decorator (third-party library code, not in this repository), "using
exponential backoff, bounded by a maximum total retry duration of 300
seconds; all other failures propagate immediately".  `attempt n` is the
outcome of the n-th call of the wrapped function, `elapsed` the total time
already spent waiting; a transient failure waits `2 ^ n` seconds and
retries unless that would exceed the 300 second budget, in which case the
last transient error propagates. -/
def retryGo (attempt : Nat → Except ApiError String) (n elapsed : Nat) :
    Except ApiError String :=
  match attempt n with
  | Except.ok s => Except.ok s
  | Except.error e =>
    if isTransient e then
      if 300 < elapsed + 2 ^ n then Except.error e
      else retryGo attempt (n + 1) (elapsed + 2 ^ n)
    else Except.error e
termination_by 301 - elapsed
decreasing_by
  have hp : 0 < 2 ^ n := Nat.pos_pow_of_pos n (by decide)
  omega

/-- Modelled from the spec: the retry wrapper that the decorator puts
around `get_completion`, started with no attempts made and no time
elapsed. -/
def retry (attempt : Nat → Except ApiError String) : Except ApiError String :=
  retryGo attempt 0 0

/-- Text contributed by one well-formed legacy chunk: the `"text"` of its
first choice, or nothing when `choices` is `None` or empty. -/
def textEventText (event : TextChunk) : String :=
  match event.choices with
  | some (choice :: _) => choice.text.getD ""
  | _ => ""

/-- A legacy chunk on which the aggregation loop does not raise: whenever
its `choices` list is present and nonempty, the first choice carries a
`"text"` string. -/
def textChunkOk (event : TextChunk) : Bool :=
  match event.choices with
  | some (choice :: _) => choice.text.isSome
  | _ => true

/-- A chat chunk the aggregation loop skips: `choices` is `None` or empty,
or the first choice carries neither delta content nor message content. -/
def chatChunkMalformed (event : ChatChunk) : Bool :=
  match event.choices with
  | none => true
  | some [] => true
  | some (choice :: _) =>
    (match choice.delta with
     | some d => d.content.isNone
     | none => true) &&
    (match choice.message with
     | some m => m.content.isNone
     | none => true)

/-- A legacy chunk whose `choices` entry is `None` or empty; these are the
only malformed shapes the text-mode loop skips. -/
def textChunkNoChoices (event : TextChunk) : Bool :=
  match event.choices with
  | some (_ :: _) => false
  | _ => true

/-- Stand-in for the external gpt2 tokenizer in concrete test fixtures: one
token per code point. -/
def testEncoder (s : String) : List Nat :=
  s.data.map Char.toNat

/-- Concrete client used to instantiate theorems about the completion
paths. -/
def testClient : OpenAIClient :=
  OpenAIClient.init testEncoder "gpt-3.5-turbo" 0 0 0 4000 256

/-- Concrete chat stream: one delta-bearing chunk and one message-bearing
chunk. -/
def chatEventsEx : List ChatChunk :=
  [{ choices := some [{ delta := some { content := some "Hel" }, message := none }] },
   { choices := some [{ delta := none, message := some { content := some "lo" } }] }]

/-- Concrete legacy text stream of two well-formed chunks. -/
def textEventsEx : List TextChunk :=
  [{ choices := some [{ text := some "wor" }] },
   { choices := some [{ text := some "ld" }] }]

/-- Well-formed legacy chunk carrying the given text. -/
def textGood (t : String) : TextChunk :=
  { choices := some [{ text := some t }] }

/-- Legacy chunk whose first choice has no `"text"` entry: the loop body of
`get_completion_text` raises on it. -/
def textBad : TextChunk :=
  { choices := some [{ text := none }] }

/-- Chat chunk whose first choice carries neither delta nor message
content. -/
def chatBad : ChatChunk :=
  { choices := some [{ delta := some { content := none }, message := none }] }

/-- Client whose configured `max_tokens` is no larger than the token count
of any combined prompt under its encoder. -/
def underflowClient : OpenAIClient :=
  OpenAIClient.init (fun _ => List.replicate 5 0) "gpt-3.5-turbo" 0 0 0 5 256

/-- Attempt sequence that always fails with a non-retryable error. -/
def attemptsAuthFailure : Nat → Except ApiError String :=
  fun _ => Except.error (ApiError.other 401)

/-- Attempt sequence: two rate-limit failures, then success. -/
def attemptsEventualOk : Nat → Except ApiError String :=
  fun n => if n < 2 then Except.error ApiError.rateLimit else Except.ok "done"

/-- Attempt sequence that is rate-limited forever. -/
def attemptsAlwaysLimited : Nat → Except ApiError String :=
  fun _ => Except.error ApiError.rateLimit

/-! Helper lemmas shared by several claims. -/

/-- Joining a cons is the head appended to the join of the tail. -/
theorem string_join_cons (s : String) (l : List String) :
    String.join (s :: l) = s ++ String.join l := by
  apply String.ext
  simp

/-- The aggregation loop of both streaming modes is a left fold of
string-append; it equals the join of the per-chunk texts. -/
theorem foldl_append_eq_join {α : Type} (f : α → String) :
    ∀ (l : List α) (init : String),
      l.foldl (fun acc a => acc ++ f a) init = init ++ String.join (l.map f)
  | [], init => by simp [String.join]
  | a :: t, init => by
    rw [List.foldl_cons, foldl_append_eq_join f t (init ++ f a), List.map_cons,
      string_join_cons, String.append_assoc]

/-- On a stream whose chunks never make the text-mode loop raise, the fold
succeeds with the join of the per-chunk texts. -/
theorem textFold_ok :
    ∀ (l : List TextChunk) (s : String), (∀ e ∈ l, textChunkOk e = true) →
      l.foldl textEventStep (some s) = some (s ++ String.join (l.map textEventText))
  | [], s, _ => by simp [String.join]
  | e :: t, s, h => by
    have he : textChunkOk e = true := h e (List.mem_cons_self e t)
    have ht : ∀ x ∈ t, textChunkOk x = true := fun x hx => h x (List.mem_cons_of_mem e hx)
    rw [List.foldl_cons, List.map_cons, string_join_cons]
    match hev : e.choices with
    | none =>
      rw [show textEventStep (some s) e = some s by simp [textEventStep, hev],
        textFold_ok t s ht]
      simp [textEventText, hev, String.append_assoc]
    | some [] =>
      rw [show textEventStep (some s) e = some s by simp [textEventStep, hev],
        textFold_ok t s ht]
      simp [textEventText, hev, String.append_assoc]
    | some (choice :: rest) =>
      rw [textChunkOk, hev] at he
      obtain ⟨txt, htxt⟩ := Option.isSome_iff_exists.mp he
      rw [show textEventStep (some s) e = some (s ++ txt) by
          simp [textEventStep, hev, htxt],
        textFold_ok t (s ++ txt) ht]
      simp [textEventText, hev, htxt, String.append_assoc]

/-- A skipped chat chunk contributes no text. -/
theorem chatEventText_of_malformed (event : ChatChunk)
    (h : chatChunkMalformed event = true) : chatEventText event = "" := by
  obtain ⟨choices⟩ := event
  match choices with
  | none => rfl
  | some [] => rfl
  | some (choice :: rest) =>
    obtain ⟨delta, message⟩ := choice
    rw [chatChunkMalformed] at h
    simp only [Bool.and_eq_true] at h
    match delta, message with
    | none, none => rfl
    | none, some m =>
      have : m.content = none := Option.isNone_iff_eq_none.mp h.2
      simp [chatEventText, chatChoiceText, this]
    | some d, none =>
      have : d.content = none := Option.isNone_iff_eq_none.mp h.1
      simp [chatEventText, chatChoiceText, this]
    | some d, some m =>
      have hd : d.content = none := Option.isNone_iff_eq_none.mp h.1
      have hm : m.content = none := Option.isNone_iff_eq_none.mp h.2
      simp [chatEventText, chatChoiceText, hd, hm]

/-- The text-mode loop body leaves the accumulator unchanged on a chunk
whose `choices` entry is `None` or empty. -/
theorem textEventStep_of_noChoices (acc : Option String) (event : TextChunk)
    (h : textChunkNoChoices event = true) : textEventStep acc event = acc := by
  obtain ⟨choices⟩ := event
  match acc with
  | none => rfl
  | some s =>
    match choices with
    | none => rfl
    | some [] => rfl
    | some (choice :: rest) => simp [textChunkNoChoices] at h

/-- Claim C1: the result of `get_completion_chat` is the concatenation, in
arrival order, of the content carried by each chunk (delta-bearing and
message-bearing shapes alike), and the result of `get_completion_text` is
the concatenation, in arrival order, of each chunk's text field. -/
theorem streamed_concatenation_in_order (self : OpenAIClient) (prompt : String)
    (chatEvents : List ChatChunk) (textEvents : List TextChunk)
    (h : ∀ e ∈ textEvents, textChunkOk e = true) :
    (get_completion_chat self prompt chatEvents).1.2
      = String.join (chatEvents.map chatEventText)
    ∧ (get_completion_text self prompt textEvents).1.2
      = some (String.join (textEvents.map textEventText)) := by
  constructor
  · show chatEvents.foldl (fun acc event => acc ++ chatEventText event) ""
      = String.join (chatEvents.map chatEventText)
    rw [foldl_append_eq_join, String.empty_append]
  · show textEvents.foldl textEventStep (some "")
      = some (String.join (textEvents.map textEventText))
    rw [textFold_ok textEvents "" h, String.empty_append]

/-- Witness for C1 at a concrete client and two concrete streams. -/
theorem streamed_concatenation_in_order_witness :
    (∀ e ∈ textEventsEx, textChunkOk e = true)
    ∧ ((get_completion_chat testClient "p" chatEventsEx).1.2
        = String.join (chatEventsEx.map chatEventText)
      ∧ (get_completion_text testClient "p" textEventsEx).1.2
        = some (String.join (textEventsEx.map textEventText))) :=
  ⟨by decide,
   streamed_concatenation_in_order testClient "p" chatEventsEx textEventsEx (by decide)⟩

/-- Counterexample to claim C4: in legacy text mode a chunk whose first
choice has no `"text"` entry is not skipped — the loop raises (result
`none`), and the content `"a"` already accumulated from the well-formed
chunk before it is lost rather than preserved together with the `"b"`
after it. -/
theorem text_mode_raises_on_missing_text :
    (get_completion_text testClient "p" [textGood "a", textBad, textGood "b"]).1.2
      ≠ some ("a" ++ "b")
    ∧ (get_completion_text testClient "p" [textGood "a", textBad, textGood "b"]).1.2
      = none := by
  constructor
  · intro h
    rw [show (get_completion_text testClient "p"
        [textGood "a", textBad, textGood "b"]).1.2 = none from rfl] at h
    exact Option.noConfusion h
  · rfl

/-- Claim C4 as amended: `get_completion_chat` skips every malformed chunk
(no choices, empty choices, or a first choice carrying neither delta nor
message content) and preserves the content of the well-formed chunks around
it; `get_completion_text` does so only for chunks whose `choices` entry is
`None` or empty — a first choice missing its `"text"` entry instead makes
the call raise. -/
theorem malformed_chunks_skipped (self : OpenAIClient) (prompt : String)
    (pre post : List ChatChunk) (e : ChatChunk)
    (he : chatChunkMalformed e = true)
    (tpre tpost : List TextChunk) (te : TextChunk)
    (hte : textChunkNoChoices te = true) :
    (get_completion_chat self prompt (pre ++ e :: post)).1.2
      = (get_completion_chat self prompt (pre ++ post)).1.2
    ∧ (get_completion_text self prompt (tpre ++ te :: tpost)).1.2
      = (get_completion_text self prompt (tpre ++ tpost)).1.2 := by
  constructor
  · show (pre ++ e :: post).foldl (fun acc event => acc ++ chatEventText event) ""
      = (pre ++ post).foldl (fun acc event => acc ++ chatEventText event) ""
    rw [List.foldl_append, List.foldl_append, List.foldl_cons,
      chatEventText_of_malformed e he, String.append_empty]
  · show (tpre ++ te :: tpost).foldl textEventStep (some "")
      = (tpre ++ tpost).foldl textEventStep (some "")
    rw [List.foldl_append, List.foldl_append, List.foldl_cons,
      textEventStep_of_noChoices _ te hte]

/-- Witness for the amended C4: a malformed chat chunk and an
empty-choices text chunk sitting between well-formed chunks change
nothing. -/
theorem malformed_chunks_skipped_witness :
    (chatChunkMalformed chatBad = true ∧ textChunkNoChoices ⟨some []⟩ = true)
    ∧ ((get_completion_chat testClient "p"
          (chatEventsEx ++ chatBad :: [])).1.2
        = (get_completion_chat testClient "p" (chatEventsEx ++ [])).1.2
      ∧ (get_completion_text testClient "p"
          ([textGood "a"] ++ (⟨some []⟩ : TextChunk) :: [textGood "b"])).1.2
        = (get_completion_text testClient "p" ([textGood "a"] ++ [textGood "b"])).1.2) :=
  ⟨⟨by decide, by decide⟩,
   malformed_chunks_skipped testClient "p" chatEventsEx [] chatBad (by decide)
     [textGood "a"] [textGood "b"] ⟨some []⟩ (by decide)⟩

/-- Claim C10: only the first element of a chunk's `choices` list
contributes; replacing everything after the first choice changes neither
aggregated result. -/
theorem only_first_choice_contributes (self : OpenAIClient) (prompt : String)
    (choice : ChatChoice) (rest rest' : List ChatChoice)
    (pre post : List ChatChunk)
    (tchoice : TextChoice) (trest trest' : List TextChoice)
    (tpre tpost : List TextChunk) :
    (get_completion_chat self prompt
        (pre ++ ({ choices := some (choice :: rest) } : ChatChunk) :: post)).1.2
      = (get_completion_chat self prompt
        (pre ++ ({ choices := some (choice :: rest') } : ChatChunk) :: post)).1.2
    ∧ (get_completion_text self prompt
        (tpre ++ ({ choices := some (tchoice :: trest) } : TextChunk) :: tpost)).1.2
      = (get_completion_text self prompt
        (tpre ++ ({ choices := some (tchoice :: trest') } : TextChunk) :: tpost)).1.2 := by
  constructor
  · show (pre ++ _ :: post).foldl (fun acc event => acc ++ chatEventText event) ""
      = (pre ++ _ :: post).foldl (fun acc event => acc ++ chatEventText event) ""
    rw [List.foldl_append, List.foldl_append, List.foldl_cons, List.foldl_cons]
    rfl
  · show (tpre ++ _ :: tpost).foldl textEventStep (some "")
      = (tpre ++ _ :: tpost).foldl textEventStep (some "")
    rw [List.foldl_append, List.foldl_append, List.foldl_cons, List.foldl_cons]
    rfl

/-- Claim C2: `get_completion` takes the chat path exactly when the
configured model identifier starts with `"gpt-"`, and the legacy text path
for every other model identifier. -/
theorem dispatch_on_gpt_model (self : OpenAIClient) :
    ((get_completion self).1 = CompletionMode.chat
      ↔ ∃ rest, self.model = "gpt-" ++ rest)
    ∧ ((get_completion self).1 = CompletionMode.text
      ↔ ¬ ∃ rest, self.model = "gpt-" ++ rest) := by
  have hiff : py_startswith self.model "gpt-" = true
      ↔ ∃ rest, self.model = "gpt-" ++ rest := by
    rw [py_startswith, List.isPrefixOf_iff_prefix]
    constructor
    · rintro ⟨t, ht⟩
      refine ⟨⟨t⟩, String.ext ?_⟩
      rw [String.data_append]
      exact ht.symm
    · rintro ⟨r, hr⟩
      exact ⟨r.data, by rw [hr, String.data_append]⟩
  by_cases h : py_startswith self.model "gpt-" = true
  · constructor
    · simp [get_completion, h, hiff.mp h]
    · simp only [get_completion, h, if_true]
      constructor
      · intro hc
        exact absurd hc (by simp)
      · intro hn
        exact absurd (hiff.mp h) hn
  · have h' : py_startswith self.model "gpt-" = false := by
      simpa using h
    constructor
    · simp only [get_completion, h', if_false, Bool.false_eq_true]
      constructor
      · intro hc
        exact absurd hc (by simp)
      · intro hp
        exact absurd (hiff.mpr hp) h
    · simp only [get_completion, h', Bool.false_eq_true, if_false]
      constructor
      · intro _
        intro hp
        exact absurd (hiff.mpr hp) h
      · intro _
        trivial

/-- Claim C5: the `max_tokens` sent with the chat request is the configured
`max_tokens` minus the token count of the system prompt, a newline and the
user prompt concatenated; the legacy text request carries the same budget
computed against the same combined prompt text. -/
theorem generation_budget_formula (self : OpenAIClient) (prompt : String)
    (chatEvents : List ChatChunk) (textEvents : List TextChunk) :
    (get_completion_chat self prompt chatEvents).1.1.max_tokens
      = self.max_tokens
        - ((self.encoder (system_prompt ++ "\n" ++ prompt)).length : Int)
    ∧ (get_completion_text self prompt textEvents).1.1.max_tokens
      = self.max_tokens
        - ((self.encoder (system_prompt ++ "\n" ++ prompt)).length : Int) :=
  ⟨rfl, rfl⟩

/-- Counterexample to claim C3: with a client whose combined prompt encodes
to 5 tokens and whose configured `max_tokens` is 5 (combined count ≥
`max_tokens`), the code does not fail fast — both paths still build their
request, carrying a generation budget of exactly 0. -/
theorem budget_underflow_request_still_issued :
    ((underflowClient.encoder (system_prompt ++ "\n" ++ "p")).length : Int) = 5
    ∧ underflowClient.max_tokens = 5
    ∧ (get_completion_chat underflowClient "p" []).1.1.max_tokens = 0
    ∧ (get_completion_text underflowClient "p" []).1.1.max_tokens = 0 :=
  ⟨rfl, rfl, rfl, rfl⟩

/-- Claim C3 as amended: no fail-fast check exists; each path always issues
its request with budget `max_tokens − token_count`, and that budget is
positive exactly when the combined token count is strictly below the
configured `max_tokens`. -/
theorem generation_budget_sign (self : OpenAIClient) (prompt : String)
    (chatEvents : List ChatChunk) (textEvents : List TextChunk) :
    (0 < (get_completion_chat self prompt chatEvents).1.1.max_tokens
      ↔ ((self.encoder (system_prompt ++ "\n" ++ prompt)).length : Int)
          < self.max_tokens)
    ∧ (0 < (get_completion_text self prompt textEvents).1.1.max_tokens
      ↔ ((self.encoder (system_prompt ++ "\n" ++ prompt)).length : Int)
          < self.max_tokens) := by
  constructor
  · show 0 < self.max_tokens
        - ((self.encoder (system_prompt ++ "\n" ++ prompt)).length : Int) ↔ _
    omega
  · show 0 < self.max_tokens
        - ((self.encoder (system_prompt ++ "\n" ++ prompt)).length : Int) ↔ _
    omega

/-- Claim C7: the two prompt formatters are pure: their result depends only
on their string arguments (not even on the client's configuration), and
they leave the client unchanged. -/
theorem prompt_formatters_pure (s1 s2 : OpenAIClient)
    (title body filename changes : String) :
    ((get_pr_prompt s1 title body changes).1
        = (get_pr_prompt s2 title body changes).1
      ∧ (get_pr_prompt s1 title body changes).2 = s1)
    ∧ ((get_file_prompt s1 title body filename changes).1
        = (get_file_prompt s2 title body filename changes).1
      ∧ (get_file_prompt s1 title body filename changes).2 = s1) :=
  ⟨⟨rfl, rfl⟩, ⟨rfl, rfl⟩⟩

/-- Claim C8: `get_pr_prompt` ignores `title` and `body`; its result is the
fixed template with only `changes` interpolated, and with empty `changes`
the template scaffolding is still produced. -/
theorem pr_prompt_ignores_title_body (self : OpenAIClient)
    (t1 b1 t2 b2 changes : String) :
    (get_pr_prompt self t1 b1 changes).1 = (get_pr_prompt self t2 b2 changes).1
    ∧ (get_pr_prompt self t1 b1 changes).1
      = "Here are the changes for this pull request:\nChanges:\n```\n"
          ++ changes ++ "\n```\n    "
    ∧ (get_pr_prompt self t1 b1 "").1
      = "Here are the changes for this pull request:\nChanges:\n```\n"
          ++ "\n```\n    " := by
  refine ⟨rfl, rfl, ?_⟩
  show "Here are the changes for this pull request:\nChanges:\n```\n"
      ++ "" ++ "\n```\n    " = _
  rw [String.append_empty]

/-- Claim C9: no operation of the client modifies its configuration: every
call hands back the client exactly as constructed. -/
theorem client_configuration_immutable (self : OpenAIClient)
    (prompt title body filename changes : String)
    (chatEvents : List ChatChunk) (textEvents : List TextChunk) :
    (get_completion self).2 = self
    ∧ (get_completion_chat self prompt chatEvents).2 = self
    ∧ (get_completion_text self prompt textEvents).2 = self
    ∧ (get_pr_prompt self title body changes).2 = self
    ∧ (get_file_prompt self title body filename changes).2 = self :=
  ⟨rfl, rfl, rfl, rfl, rfl⟩

/-- A successful attempt ends the retry loop at once. -/
theorem retryGo_ok (attempt : Nat → Except ApiError String) (n elapsed : Nat)
    (s : String) (ha : attempt n = Except.ok s) :
    retryGo attempt n elapsed = Except.ok s := by
  rw [retryGo.eq_def, ha]

/-- A non-retryable failure propagates at once. -/
theorem retryGo_nontransient (attempt : Nat → Except ApiError String)
    (n elapsed : Nat) (e : ApiError) (ha : attempt n = Except.error e)
    (hnt : isTransient e = false) :
    retryGo attempt n elapsed = Except.error e := by
  rw [retryGo.eq_def, ha]
  simp [hnt]

/-- A transient failure within the time budget waits `2 ^ n` seconds and
retries. -/
theorem retryGo_transient_retries (attempt : Nat → Except ApiError String)
    (n elapsed : Nat) (e : ApiError) (ha : attempt n = Except.error e)
    (ht : isTransient e = true) (hb : ¬ 300 < elapsed + 2 ^ n) :
    retryGo attempt n elapsed = retryGo attempt (n + 1) (elapsed + 2 ^ n) := by
  conv_lhs => rw [retryGo.eq_def]
  rw [ha]
  simp [ht, hb]

/-- A transient failure that would overrun the 300 second budget
propagates. -/
theorem retryGo_transient_gives_up (attempt : Nat → Except ApiError String)
    (n elapsed : Nat) (e : ApiError) (ha : attempt n = Except.error e)
    (ht : isTransient e = true) (hb : 300 < elapsed + 2 ^ n) :
    retryGo attempt n elapsed = Except.error e := by
  rw [retryGo.eq_def, ha]
  simp [ht, hb]

/-- When every attempt fails with the same transient error, the loop keeps
retrying until the exponentially growing waits exhaust the 300 second
budget, and then that error propagates. -/
theorem retryGo_const_transient_error (attempt : Nat → Except ApiError String)
    (e : ApiError) (ht : isTransient e = true)
    (hall : ∀ k, attempt k = Except.error e) :
    ∀ (fuel n elapsed : Nat), 301 ≤ elapsed + fuel →
      retryGo attempt n elapsed = Except.error e := by
  intro fuel
  induction fuel with
  | zero =>
    intro n elapsed h
    have hp : 0 < 2 ^ n := Nat.pos_pow_of_pos n (by decide)
    exact retryGo_transient_gives_up attempt n elapsed e (hall n) ht (by omega)
  | succ f ih =>
    intro n elapsed h
    by_cases hb : 300 < elapsed + 2 ^ n
    · exact retryGo_transient_gives_up attempt n elapsed e (hall n) ht hb
    · have hp : 0 < 2 ^ n := Nat.pos_pow_of_pos n (by decide)
      rw [retryGo_transient_retries attempt n elapsed e (hall n) ht hb]
      exact ih (n + 1) (elapsed + 2 ^ n) (by omega)

/-- Claim C6: the retry wrapper retries exactly the transient failures
(rate limit, connection failure, service unavailable) with exponential
backoff bounded by 300 seconds in total, after which the last transient
error propagates, and it propagates every other exception immediately
without any retry. -/
theorem retry_policy (attempt : Nat → Except ApiError String) :
    (∀ e, isTransient e = false → attempt 0 = Except.error e →
      retry attempt = Except.error e)
    ∧ (∀ s, attempt 0 = Except.error ApiError.rateLimit →
        attempt 1 = Except.error ApiError.rateLimit →
        attempt 2 = Except.ok s → retry attempt = Except.ok s)
    ∧ (∀ e, isTransient e = true → (∀ k, attempt k = Except.error e) →
        retry attempt = Except.error e) := by
  refine ⟨?_, ?_, ?_⟩
  · intro e hnt h0
    exact retryGo_nontransient attempt 0 0 e h0 hnt
  · intro s h0 h1 h2
    rw [retry,
      retryGo_transient_retries attempt 0 0 ApiError.rateLimit h0 rfl (by decide)]
    rw [retryGo_transient_retries attempt 1 (0 + 2 ^ 0) ApiError.rateLimit h1 rfl
      (by decide)]
    exact retryGo_ok attempt (1 + 1) (0 + 2 ^ 0 + 2 ^ 1) s h2
  · intro e ht hall
    exact retryGo_const_transient_error attempt e ht hall 301 0 0 (by omega)

/-- Witness for C6 at three concrete attempt sequences: an authentication
failure propagates untouched, two rate limits followed by success return
the success, and a permanent rate limit surfaces as the rate-limit
error. -/
theorem retry_policy_witness :
    retry attemptsAuthFailure = Except.error (ApiError.other 401)
    ∧ retry attemptsEventualOk = Except.ok "done"
    ∧ retry attemptsAlwaysLimited = Except.error ApiError.rateLimit :=
  ⟨(retry_policy attemptsAuthFailure).1 (ApiError.other 401) rfl rfl,
   (retry_policy attemptsEventualOk).2.1 "done" rfl rfl rfl,
   (retry_policy attemptsAlwaysLimited).2.2 ApiError.rateLimit rfl (fun _ => rfl)⟩
